import Mathlib

/-!
# Verification of the pyAW pyRevit pushbutton scripts

Shallow embedding of the pure logic of the pyAW repository
(`pyAW.tab/...pushbutton/script.py` files) together with theorems about the
embedded definitions.  Machine reals (Python floats / Revit doubles) are
embedded as `Rat`; Revit-hosted objects (documents, elements, parameters,
levels) are embedded as explicit records; host calls whose results the
scripts merely consume (Python `float`/`int` parsing, Revit unit
conversion) are passed in as explicit function arguments.
-/

namespace PyAW

/-- Revit `DB.StorageType` enumeration: the five storage types a parameter
can have (`None`, `Integer`, `Double`, `String`, `ElementId`). -/
inductive StorageType where
  | noneType
  | integer
  | double
  | string
  | elementId
deriving DecidableEq, Repr

/-- Embedding of the `compatible_pairs` dictionary of
`are_parameter_types_compatible` (Clash Data `script.py` lines 67-72 and
Import CSV Data `script.py` lines 90-95): the Python dict maps each of the
four non-`None` storage types to the singleton list of itself, and the
`.get(source_type, [])` lookup yields `[]` for `StorageType.None`, which
has no key in the dict. -/
def compatible_pairs : StorageType → List StorageType
  | .string => [.string]
  | .integer => [.integer]
  | .double => [.double]
  | .elementId => [.elementId]
  | .noneType => []

/-- Embedding of `are_parameter_types_compatible(source_param, target_param)`
(identical in Clash Data `script.py` lines 63-77 and Import CSV Data
`script.py` lines 74-100), as a function of the two parameters' storage
types (the only attribute the Python function reads). -/
def are_parameter_types_compatible (source_type target_type : StorageType) : Bool :=
  if source_type = .elementId ∧ target_type = .string then
    true
  else
    (compatible_pairs source_type).contains target_type

/-- C4 counterexample: the claim states that `are_parameter_types_compatible`
returns `True` whenever source and target have the same `StorageType`.  At the
concrete input source = target = `StorageType.None` the two storage types are
equal, yet the function returns `False`, because the Python
`compatible_pairs.get(source_type, [])` lookup has no entry for
`StorageType.None` and defaults to the empty list. -/
theorem c4_counterexample_none_none :
    ¬ (are_parameter_types_compatible .noneType .noneType = true ↔
        (StorageType.noneType = StorageType.noneType ∨
          (StorageType.noneType = StorageType.elementId ∧
            StorageType.noneType = StorageType.string))) := by
  decide

/-- C4 (amended): `are_parameter_types_compatible` returns `True` if and only
if source and target have the same `StorageType` and that storage type is not
`None`, or the source storage type is `ElementId` and the target storage type
is `String`; in every other case (including `Double` to `Integer`, `Integer`
to `Double`, `Double` to `String`, `String` to `Double`, and `None` to
`None`) it returns `False`. -/
theorem c4_compatibility_characterization (s t : StorageType) :
    are_parameter_types_compatible s t = true ↔
      ((s = t ∧ s ≠ .noneType) ∨ (s = .elementId ∧ t = .string)) := by
  cases s <;> cases t <;> decide

/-- A Revit `Level` element, reduced to the two attributes the Assign Level
script reads: its `Name` and its `Elevation` (in internal units, feet). -/
structure Level where
  name : String
  elevation : Rat
deriving DecidableEq, Repr

/-- `distLt d nd` embeds the comparison `distance < nearest_distance` of
`get_nearest_level` (Assign Level `script.py` lines 107-143), where
`nd = Option.none` stands for the initial value `float('inf')`, which every
finite distance is below. -/
def distLt (d : Rat) : Option Rat → Bool
  | Option.none => true
  | Option.some d' => decide (d < d')

/-- One iteration of the `for level in selected_levels` loop of
`get_nearest_level`: the accumulator holds `(nearest_level, nearest_distance)`
with `Option.none` for the initial `None` / `float('inf')`. -/
def nearest_step (z : Rat) (direction : String)
    (acc : Option Level × Option Rat) (level : Level) : Option Level × Option Rat :=
  if direction = "Below" then
    let distance := z - level.elevation
    if 0 ≤ distance ∧ distLt distance acc.2 = true then
      (Option.some level, Option.some distance)
    else acc
  else if direction = "Above" then
    let distance := level.elevation - z
    if 0 ≤ distance ∧ distLt distance acc.2 = true then
      (Option.some level, Option.some distance)
    else acc
  else if direction = "Either" then
    let distance := |z - level.elevation|
    if distLt distance acc.2 = true then
      (Option.some level, Option.some distance)
    else acc
  else acc

/-- Embedding of `get_nearest_level(doc, instance, direction, selected_levels)`
(Assign Level `script.py` lines 107-143).  `location_point` is
`Option.some z` when `instance.Location` has a `Point` attribute with Z
coordinate `z`, and `Option.none` otherwise (in which case the Python
function returns `None` without scanning the levels). -/
def get_nearest_level (location_point : Option Rat) (direction : String)
    (selected_levels : List Level) : Option Level :=
  match location_point with
  | Option.none => Option.none
  | Option.some z =>
      (selected_levels.foldl (nearest_step z direction) (Option.none, Option.none)).1

/-- Generic form of one loop iteration of `get_nearest_level`, with the
direction-specific distance `f` and qualification test `q` abstracted out. -/
def gen_step (f : Level → Rat) (q : Level → Bool)
    (acc : Option Level × Option Rat) (level : Level) : Option Level × Option Rat :=
  if q level = true ∧ distLt (f level) acc.2 = true then
    (Option.some level, Option.some (f level))
  else acc

theorem distLt_some_iff (d d' : Rat) : distLt d (Option.some d') = true ↔ d < d' := by
  simp [distLt]

theorem distLt_none (d : Rat) : distLt d Option.none = true := rfl

/-- Scanning from a recorded nearest candidate `(l₀, d₀)`: the scan ends at a
qualifying candidate whose distance is minimal among the tail and no larger
than `d₀`. -/
theorem gen_fold_some (f : Level → Rat) (q : Level → Bool) :
    ∀ (ls : List Level) (l₀ : Level) (d₀ : Rat), d₀ = f l₀ →
      ∃ l d,
        List.foldl (gen_step f q) (Option.some l₀, Option.some d₀) ls =
          (Option.some l, Option.some d) ∧
        d = f l ∧ d ≤ d₀ ∧ (l = l₀ ∨ (l ∈ ls ∧ q l = true)) ∧
        ∀ l' ∈ ls, q l' = true → d ≤ f l' := by
  intro ls
  induction ls with
  | nil =>
      intro l₀ d₀ h₀
      exact ⟨l₀, d₀, rfl, h₀, le_refl _, Or.inl rfl, by simp⟩
  | cons l₁ rest ih =>
      intro l₀ d₀ h₀
      by_cases hcond : q l₁ = true ∧ distLt (f l₁) (Option.some d₀) = true
      · have hstep : gen_step f q (Option.some l₀, Option.some d₀) l₁ =
            (Option.some l₁, Option.some (f l₁)) := by
          simp [gen_step, hcond.1, hcond.2]
        obtain ⟨l, d, hfold, hd, hle, hprov, hdom⟩ := ih l₁ (f l₁) rfl
        refine ⟨l, d, ?_, hd, ?_, ?_, ?_⟩
        · simpa [List.foldl_cons, hstep] using hfold
        · have hlt : f l₁ < d₀ := (distLt_some_iff _ _).mp hcond.2
          exact le_of_lt (lt_of_le_of_lt hle hlt)
        · rcases hprov with h | h
          · exact Or.inr ⟨by simp [h], by simpa [h] using hcond.1⟩
          · exact Or.inr ⟨List.mem_cons_of_mem _ h.1, h.2⟩
        · intro l' hl' hq'
          rcases List.mem_cons.mp hl' with h | h
          · exact h ▸ hle
          · exact hdom l' h hq'
      · have hstep : gen_step f q (Option.some l₀, Option.some d₀) l₁ =
            (Option.some l₀, Option.some d₀) := by
          simp only [gen_step, if_neg hcond]
        obtain ⟨l, d, hfold, hd, hle, hprov, hdom⟩ := ih l₀ d₀ h₀
        refine ⟨l, d, ?_, hd, hle, ?_, ?_⟩
        · simpa [List.foldl_cons, hstep] using hfold
        · rcases hprov with h | h
          · exact Or.inl h
          · exact Or.inr ⟨List.mem_cons_of_mem _ h.1, h.2⟩
        · intro l' hl' hq'
          rcases List.mem_cons.mp hl' with h | h
          · have hnlt : ¬ f l₁ < d₀ := by
              intro hlt
              exact hcond ⟨h ▸ hq', (distLt_some_iff _ _).mpr (h ▸ hlt)⟩
            exact le_trans hle (le_of_not_lt (h ▸ hnlt))
          · exact hdom l' h hq'

/-- If no level qualifies, the scan of `get_nearest_level` leaves the
accumulator at its initial `(None, float('inf'))` state. -/
theorem gen_fold_all_fail (f : Level → Rat) (q : Level → Bool) :
    ∀ ls : List Level, (∀ l ∈ ls, q l = false) →
      List.foldl (gen_step f q) (Option.none, Option.none) ls =
        (Option.none, Option.none) := by
  intro ls
  induction ls with
  | nil => intro _; rfl
  | cons l₁ rest ih =>
      intro h
      have hq : q l₁ = false := h l₁ (List.mem_cons_self _ _)
      have hstep : gen_step f q (Option.none, Option.none) l₁ =
          (Option.none, Option.none) := by
        simp [gen_step, hq]
      simp only [List.foldl_cons, hstep]
      exact ih fun l hl => h l (List.mem_cons_of_mem _ hl)

/-- If some level qualifies, the scan of `get_nearest_level` returns a
qualifying level of minimal distance. -/
theorem gen_fold_exists (f : Level → Rat) (q : Level → Bool) :
    ∀ ls : List Level, (∃ l ∈ ls, q l = true) →
      ∃ l d,
        List.foldl (gen_step f q) (Option.none, Option.none) ls =
          (Option.some l, Option.some d) ∧
        d = f l ∧ l ∈ ls ∧ q l = true ∧
        ∀ l' ∈ ls, q l' = true → d ≤ f l' := by
  intro ls
  induction ls with
  | nil => rintro ⟨l, hl, _⟩; exact absurd hl (List.not_mem_nil l)
  | cons l₁ rest ih =>
      intro hex
      by_cases hq : q l₁ = true
      · have hstep : gen_step f q (Option.none, Option.none) l₁ =
            (Option.some l₁, Option.some (f l₁)) := by
          simp [gen_step, hq, distLt_none]
        obtain ⟨l, d, hfold, hd, hle, hprov, hdom⟩ := gen_fold_some f q rest l₁ (f l₁) rfl
        refine ⟨l, d, ?_, hd, ?_, ?_, ?_⟩
        · simpa [List.foldl_cons, hstep] using hfold
        · rcases hprov with h | h
          · exact h ▸ List.mem_cons_self _ _
          · exact List.mem_cons_of_mem _ h.1
        · rcases hprov with h | h
          · exact h ▸ hq
          · exact h.2
        · intro l' hl' hq'
          rcases List.mem_cons.mp hl' with h | h
          · exact h ▸ hle
          · exact hdom l' h hq'
      · have hstep : gen_step f q (Option.none, Option.none) l₁ =
            (Option.none, Option.none) := by
          simp [gen_step, hq]
        obtain ⟨lw, hlw, hqw⟩ := hex
        have hlw' : lw ∈ rest := by
          rcases List.mem_cons.mp hlw with h | h
          · exact absurd (h ▸ hqw) hq
          · exact h
        obtain ⟨l, d, hfold, hd, hmem, hql, hdom⟩ := ih ⟨lw, hlw', hqw⟩
        refine ⟨l, d, ?_, hd, List.mem_cons_of_mem _ hmem, hql, ?_⟩
        · simpa [List.foldl_cons, hstep] using hfold
        · intro l' hl' hq'
          rcases List.mem_cons.mp hl' with h | h
          · exact absurd (h ▸ hq') hq
          · exact hdom l' h hq'

theorem nearest_step_below (z : Rat) :
    nearest_step z "Below" =
      gen_step (fun l => z - l.elevation) (fun l => decide (0 ≤ z - l.elevation)) := by
  funext acc level
  simp [nearest_step, gen_step]

theorem nearest_step_above (z : Rat) :
    nearest_step z "Above" =
      gen_step (fun l => l.elevation - z) (fun l => decide (0 ≤ l.elevation - z)) := by
  funext acc level
  simp [nearest_step, gen_step]

theorem nearest_step_either (z : Rat) :
    nearest_step z "Either" =
      gen_step (fun l => |z - l.elevation|) (fun _ => true) := by
  funext acc level
  simp [nearest_step, gen_step]

/-- C2: for an instance whose `Location` has no `Point`, `get_nearest_level`
returns `None`; with direction `"Below"` it returns `None` exactly when every
selected level lies strictly above the instance's Z coordinate, and otherwise
a selected level of greatest elevation not exceeding Z; with direction
`"Above"` it returns `None` exactly when every selected level lies strictly
below Z, and otherwise a selected level of least elevation at or above Z;
with direction `"Either"` and a nonempty selection it returns a selected
level minimizing the absolute difference between its elevation and Z. -/
theorem c2_get_nearest_level (z : Rat) (ls : List Level) :
    (∀ direction, get_nearest_level Option.none direction ls = Option.none) ∧
    (get_nearest_level (Option.some z) "Below" ls = Option.none ↔
      ∀ l ∈ ls, z < l.elevation) ∧
    (∀ l, get_nearest_level (Option.some z) "Below" ls = Option.some l →
      l ∈ ls ∧ l.elevation ≤ z ∧
        ∀ l' ∈ ls, l'.elevation ≤ z → l'.elevation ≤ l.elevation) ∧
    (get_nearest_level (Option.some z) "Above" ls = Option.none ↔
      ∀ l ∈ ls, l.elevation < z) ∧
    (∀ l, get_nearest_level (Option.some z) "Above" ls = Option.some l →
      l ∈ ls ∧ z ≤ l.elevation ∧
        ∀ l' ∈ ls, z ≤ l'.elevation → l.elevation ≤ l'.elevation) ∧
    (ls ≠ [] →
      ∃ l, get_nearest_level (Option.some z) "Either" ls = Option.some l ∧
        l ∈ ls ∧ ∀ l' ∈ ls, |z - l.elevation| ≤ |z - l'.elevation|) := by
  have hbelow : get_nearest_level (Option.some z) "Below" ls =
      (List.foldl
        (gen_step (fun l => z - l.elevation) (fun l => decide (0 ≤ z - l.elevation)))
        (Option.none, Option.none) ls).1 := by
    show (List.foldl (nearest_step z "Below") (Option.none, Option.none) ls).1 = _
    rw [nearest_step_below]
  have habove : get_nearest_level (Option.some z) "Above" ls =
      (List.foldl
        (gen_step (fun l => l.elevation - z) (fun l => decide (0 ≤ l.elevation - z)))
        (Option.none, Option.none) ls).1 := by
    show (List.foldl (nearest_step z "Above") (Option.none, Option.none) ls).1 = _
    rw [nearest_step_above]
  have heither : get_nearest_level (Option.some z) "Either" ls =
      (List.foldl (gen_step (fun l => |z - l.elevation|) (fun _ => true))
        (Option.none, Option.none) ls).1 := by
    show (List.foldl (nearest_step z "Either") (Option.none, Option.none) ls).1 = _
    rw [nearest_step_either]
  refine ⟨fun _ => rfl, ?_, ?_, ?_, ?_, ?_⟩
  · constructor
    · intro hres l hl
      by_contra hlt
      have hq : decide (0 ≤ z - l.elevation) = true := by
        simpa [sub_nonneg] using le_of_not_lt hlt
      obtain ⟨l', d, hfold, _, _, _, _⟩ :=
        gen_fold_exists (fun l => z - l.elevation)
          (fun l => decide (0 ≤ z - l.elevation)) ls ⟨l, hl, hq⟩
      rw [hbelow, hfold] at hres
      exact Option.noConfusion hres
    · intro hall
      have hfail := gen_fold_all_fail (fun l => z - l.elevation)
        (fun l => decide (0 ≤ z - l.elevation)) ls
        (fun l hl => by simpa [sub_nonneg] using not_le_of_lt (hall l hl))
      rw [hbelow, hfail]
  · intro l hres
    by_cases hex : ∃ l' ∈ ls, decide (0 ≤ z - l'.elevation) = true
    · obtain ⟨l₀, d, hfold, hd, hmem, hq, hdom⟩ :=
        gen_fold_exists (fun l => z - l.elevation)
          (fun l => decide (0 ≤ z - l.elevation)) ls hex
      rw [hbelow, hfold] at hres
      have hl₀ : l₀ = l := Option.some.inj hres
      subst hl₀
      refine ⟨hmem, by simpa [sub_nonneg] using hq, ?_⟩
      intro l' hl' hle'
      have hq' : decide (0 ≤ z - l'.elevation) = true := by
        simpa [sub_nonneg] using hle'
      have := hdom l' hl' hq'
      rw [hd] at this
      exact (sub_le_sub_iff_left z).mp this
    · have hfail := gen_fold_all_fail (fun l => z - l.elevation)
        (fun l => decide (0 ≤ z - l.elevation)) ls
        (fun l' hl' => by
          rcases Bool.eq_false_or_eq_true (decide (0 ≤ z - l'.elevation)) with h | h
          · exact absurd ⟨l', hl', h⟩ hex
          · exact h)
      rw [hbelow, hfail] at hres
      exact Option.noConfusion hres
  · constructor
    · intro hres l hl
      by_contra hlt
      have hq : decide (0 ≤ l.elevation - z) = true := by
        simpa [sub_nonneg] using le_of_not_lt hlt
      obtain ⟨l', d, hfold, _, _, _, _⟩ :=
        gen_fold_exists (fun l => l.elevation - z)
          (fun l => decide (0 ≤ l.elevation - z)) ls ⟨l, hl, hq⟩
      rw [habove, hfold] at hres
      exact Option.noConfusion hres
    · intro hall
      have hfail := gen_fold_all_fail (fun l => l.elevation - z)
        (fun l => decide (0 ≤ l.elevation - z)) ls
        (fun l hl => by simpa [sub_nonneg] using not_le_of_lt (hall l hl))
      rw [habove, hfail]
  · intro l hres
    by_cases hex : ∃ l' ∈ ls, decide (0 ≤ l'.elevation - z) = true
    · obtain ⟨l₀, d, hfold, hd, hmem, hq, hdom⟩ :=
        gen_fold_exists (fun l => l.elevation - z)
          (fun l => decide (0 ≤ l.elevation - z)) ls hex
      rw [habove, hfold] at hres
      have hl₀ : l₀ = l := Option.some.inj hres
      subst hl₀
      refine ⟨hmem, by simpa [sub_nonneg] using hq, ?_⟩
      intro l' hl' hle'
      have hq' : decide (0 ≤ l'.elevation - z) = true := by
        simpa [sub_nonneg] using hle'
      have := hdom l' hl' hq'
      rw [hd] at this
      exact (sub_le_sub_iff_right z).mp this
    · have hfail := gen_fold_all_fail (fun l => l.elevation - z)
        (fun l => decide (0 ≤ l.elevation - z)) ls
        (fun l' hl' => by
          rcases Bool.eq_false_or_eq_true (decide (0 ≤ l'.elevation - z)) with h | h
          · exact absurd ⟨l', hl', h⟩ hex
          · exact h)
      rw [habove, hfail] at hres
      exact Option.noConfusion hres
  · intro hne
    obtain ⟨l₀, hl₀⟩ := List.exists_mem_of_ne_nil ls hne
    obtain ⟨l, d, hfold, hd, hmem, _, hdom⟩ :=
      gen_fold_exists (fun l => |z - l.elevation|) (fun _ => true) ls ⟨l₀, hl₀, rfl⟩
    refine ⟨l, ?_, hmem, ?_⟩
    · rw [heither, hfold]
    · intro l' hl'
      have := hdom l' hl' rfl
      rwa [hd] at this

/-- Witness for C2 at a concrete input: with Z = 5 and levels of elevations
0, 7 and 3, direction `"Below"` returns the level at elevation 3, which is in
the selection and does not exceed 5. -/
theorem c2_get_nearest_level_witness :
    (⟨"L2", 3⟩ : Level) ∈ [(⟨"L1", 0⟩ : Level), ⟨"L3", 7⟩, ⟨"L2", 3⟩] ∧
      (⟨"L2", 3⟩ : Level).elevation ≤ (5 : Rat) :=
  ⟨((c2_get_nearest_level 5 [⟨"L1", 0⟩, ⟨"L3", 7⟩, ⟨"L2", 3⟩]).2.2.1 ⟨"L2", 3⟩
      (by norm_num [get_nearest_level, nearest_step, distLt])).1,
   ((c2_get_nearest_level 5 [⟨"L1", 0⟩, ⟨"L3", 7⟩, ⟨"L2", 3⟩]).2.2.1 ⟨"L2", 3⟩
      (by norm_num [get_nearest_level, nearest_step, distLt])).2.1⟩

/-- The whitespace characters stripped by Python's `str.strip()`. -/
def py_isspace (c : Char) : Bool :=
  c == ' ' || c == '\t' || c == '\n' || c == '\r' || c == '\x0b' || c == '\x0c'

/-- Python's `str.strip()`: remove leading and trailing whitespace. -/
def py_strip (s : String) : String :=
  String.mk (((s.data.dropWhile py_isspace).reverse.dropWhile py_isspace).reverse)

/-- Python's `str.upper()` (over the ASCII range the scripts compare). -/
def py_upper (s : String) : String :=
  String.mk (s.data.map Char.toUpper)

/-- Python's `str.split(sep)` for a one-character separator, on the
character list of the string; always returns at least one piece. -/
def py_split_char (sep : Char) : List Char → List (List Char)
  | [] => [[]]
  | c :: rest =>
      let r := py_split_char sep rest
      if c = sep then [] :: r
      else (c :: r.headD []) :: r.tail

/-- Python's `str.split(sep)` for a one-character separator. -/
def py_split (sep : Char) (s : String) : List String :=
  (py_split_char sep s.data).map String.mk

/-- Python's `pat in s` substring test. -/
def py_contains (pat s : String) : Bool :=
  decide (pat.data <:+: s.data)

/-- A value passed to a Revit `param.Set(...)` call. -/
inductive ParamValue where
  | str (s : String)
  | int (n : Int)
  | dbl (x : Rat)
  | elemId (n : Int)
deriving DecidableEq, Repr

/-- The two attributes of the primary element's target parameter that the
Clash Data write phase reads before deciding to write. -/
structure PrimaryParam where
  isReadOnly : Bool
  storageType : StorageType
deriving DecidableEq, Repr

/-- Embedding of the `mm_to_feet` conversion defined inside the Clash Data
write loop (`script.py` lines 530-531): `float(mm_val) / 304.8`. -/
def mm_to_feet (mm_val : Rat) : Rat :=
  mm_val / 304.8

/-- Embedding of the CropView offset conversion (`script.py` line 89):
`crop_offset_feet = crop_offset_mm / 304.8`. -/
def crop_offset_feet (crop_offset_mm : Rat) : Rat :=
  crop_offset_mm / 304.8

/-- Embedding of the per-primary-element tail of the Clash Data
`Update Primary Elements with Intersecting Element Data` transaction loop
(`script.py` lines 511-584): given the aggregated `final_value`, the list
`formatted_values`, and the looked-up target parameter (`Option.none` when
`LookupParameter` returned `None`), it returns the value passed to
`primary_param.Set(...)`, or `Option.none` when the loop moves on
without writing.  `pfloat` and `pint` stand for Python's `float(...)` and
`int(...)` parsers (`Option.none` = `ValueError`). -/
def clash_write (pfloat : String → Option Rat) (pint : String → Option Int)
    (final_value : String) (formatted_values : List String)
    (primary_param : Option PrimaryParam) : Option ParamValue :=
  if py_strip final_value = "" then Option.none
  else if formatted_values.all (fun val => py_contains "N/A" val) then Option.none
  else
    match primary_param with
    | Option.none => Option.none
    | Option.some p =>
      if p.isReadOnly then Option.none
      else
        match p.storageType with
        | .double =>
            if (py_split ',' final_value).length > 1 then Option.none
            else
              match pfloat (py_strip ((py_split ',' final_value).headD "")) with
              | Option.none => Option.none
              | Option.some float_val => Option.some (.dbl (mm_to_feet float_val))
        | .string =>
            if py_upper (py_strip final_value) = "N/A" then Option.none
            else Option.some (.str final_value)
        | .integer =>
            if (py_split ',' final_value).length > 1 then Option.none
            else
              match pint (py_strip ((py_split ',' final_value).headD "")) with
              | Option.none => Option.none
              | Option.some int_val => Option.some (.int int_val)
        | _ => Option.none

/-- Host-side effect of the write decision on the target parameter:
`Option.none` means no `Set` call was made, so the parameter keeps its
current value. -/
def apply_write (current : ParamValue) : Option ParamValue → ParamValue
  | Option.none => current
  | Option.some v => v

/-- C3: whenever the Clash Data write phase sets a Double (dimension) target
parameter, the value written is the single numeric value parsed from the
aggregated CSV data interpreted as millimeters and converted to Revit
internal units by exact division by 304.8; and the CropView script converts
the user-entered crop offset from millimeters to feet by the same division
by 304.8. -/
theorem c3_double_write_divides_by_304_8
    (pfloat : String → Option Rat) (pint : String → Option Int)
    (final_value : String) (formatted_values : List String)
    (p : Option PrimaryParam) (w : Rat)
    (h : clash_write pfloat pint final_value formatted_values p =
      Option.some (ParamValue.dbl w)) :
    (∃ v, pfloat (py_strip ((py_split ',' final_value).headD "")) = Option.some v ∧
      w = v / 304.8) ∧
    (∀ mm : Rat, crop_offset_feet mm = mm / 304.8) := by
  refine ⟨?_, fun mm => rfl⟩
  unfold clash_write at h
  split at h
  · exact Option.noConfusion h
  · split at h
    · exact Option.noConfusion h
    · split at h
      · exact Option.noConfusion h
      · split at h
        · exact Option.noConfusion h
        · split at h
          · split at h
            · exact Option.noConfusion h
            · split at h
              · exact Option.noConfusion h
              · rename_i float_val hpf
                refine ⟨float_val, hpf, ?_⟩
                exact (ParamValue.dbl.inj (Option.some.inj h)).symm
          · split at h
            · exact Option.noConfusion h
            · exact ParamValue.noConfusion (Option.some.inj h)
          · split at h
            · exact Option.noConfusion h
            · split at h
              · exact Option.noConfusion h
              · exact ParamValue.noConfusion (Option.some.inj h)
          · exact Option.noConfusion h

/-- Witness for C3 at a concrete input: with the parser recognizing `"5"`,
the aggregated value `"5"` written to a writable Double parameter yields a
`Set` of `5 / 304.8` feet. -/
theorem c3_double_write_witness :
    ∃ v, (fun s => if s = "5" then Option.some (5 : Rat) else Option.none)
        (py_strip ((py_split ',' "5").headD "")) = Option.some v ∧
      mm_to_feet 5 = v / 304.8 :=
  (c3_double_write_divides_by_304_8
    (fun s => if s = "5" then Option.some (5 : Rat) else Option.none)
    (fun _ => Option.none) "5" ["5"]
    (Option.some ⟨false, .double⟩) (mm_to_feet 5) (by rfl)).1

/-- C9: a primary element whose aggregated `final_value` is empty after
stripping whitespace, or whose `formatted_values` all contain the substring
`"N/A"`, receives no write and its target parameter keeps its current value;
and a String target parameter is not written when the stripped, upper-cased
`final_value` equals `"N/A"`. -/
theorem c9_skip_preserves_parameter
    (pfloat : String → Option Rat) (pint : String → Option Int)
    (final_value : String) (formatted_values : List String)
    (p : Option PrimaryParam) (current : ParamValue) :
    (py_strip final_value = "" →
      apply_write current
        (clash_write pfloat pint final_value formatted_values p) = current) ∧
    ((∀ val ∈ formatted_values, py_contains "N/A" val = true) →
      apply_write current
        (clash_write pfloat pint final_value formatted_values p) = current) ∧
    (∀ ro : Bool, p = Option.some ⟨ro, .string⟩ →
      py_upper (py_strip final_value) = "N/A" →
      apply_write current
        (clash_write pfloat pint final_value formatted_values p) = current) := by
  refine ⟨?_, ?_, ?_⟩
  · intro h
    unfold clash_write
    rw [if_pos h]
    rfl
  · intro h
    unfold clash_write
    split
    · rfl
    · rw [if_pos (by simpa [List.all_eq_true] using h)]
      rfl
  · intro ro hp hna
    subst hp
    unfold clash_write
    split
    · rfl
    split
    · rfl
    cases ro <;> simp [hna, apply_write]

/-- Witness for C9 at concrete inputs: a whitespace-only final value, an
all-`"N/A"` formatted list, and a stripped upper-cased `"n/a"` string value
each leave the parameter at its current value. -/
theorem c9_skip_preserves_parameter_witness :
    (apply_write (ParamValue.str "keep")
      (clash_write (fun _ => Option.none) (fun _ => Option.none) " " []
        Option.none) = ParamValue.str "keep") ∧
    (apply_write (ParamValue.str "keep")
      (clash_write (fun _ => Option.none) (fun _ => Option.none) "N/A" ["N/A"]
        Option.none) = ParamValue.str "keep") ∧
    (apply_write (ParamValue.str "keep")
      (clash_write (fun _ => Option.none) (fun _ => Option.none) " n/a " ["x"]
        (Option.some ⟨false, .string⟩)) = ParamValue.str "keep") :=
  ⟨(c9_skip_preserves_parameter (fun _ => Option.none) (fun _ => Option.none)
      " " [] Option.none (ParamValue.str "keep")).1 (by decide),
   (c9_skip_preserves_parameter (fun _ => Option.none) (fun _ => Option.none)
      "N/A" ["N/A"] Option.none (ParamValue.str "keep")).2.1 (by decide),
   (c9_skip_preserves_parameter (fun _ => Option.none) (fun _ => Option.none)
      " n/a " ["x"] (Option.some ⟨false, .string⟩)
      (ParamValue.str "keep")).2.2 false rfl (by decide)⟩

/-- The attributes of a parameter examined by the per-cell update of the
Schedule EXIM CSV import (`import_csv_to_revit`, `script.py` lines 269-322):
its storage type, writability, whether it is a type parameter
(`param.Element.Id != element.Id`), and its current value in each storage
representation (`AsString`, `AsInteger`, `AsDouble` in internal units,
`AsElementId().IntegerValue`). -/
structure ImportParam where
  storageType : StorageType
  isReadOnly : Bool
  isTypeParam : Bool
  currentString : Option String
  currentInt : Int
  currentDouble : Rat
  currentElemId : Int
deriving DecidableEq, Repr

/-- Embedding of one `(key, value)` update of `import_csv_to_revit`
(`script.py` lines 269-322) for a parameter that was found.  `conv` stands
for `DB.UnitUtils.ConvertToInternalUnits(·, display_unit)` at the
parameter's display unit; `pfloat` and `pint` stand for Python's
`float(...)` and `int(...)` (`Option.none` = exception, which the script
swallows with `pass`).  The result is the value passed to `param.Set(...)`,
or `Option.none` when the script `continue`s without writing. -/
def import_update (pfloat : String → Option Rat) (pint : String → Option Int)
    (conv : Rat → Rat) (update_type_params : Bool)
    (p : ImportParam) (value : String) : Option ParamValue :=
  if p.isReadOnly then Option.none
  else if p.isTypeParam && !update_type_params then Option.none
  else
    match p.storageType with
    | .string =>
        if p.currentString.getD "" = py_strip value then Option.none
        else Option.some (.str (py_strip value))
    | .double =>
        match pfloat (py_strip value) with
        | Option.none => Option.none
        | Option.some display_value =>
            if |p.currentDouble - conv display_value| < 1 / 1000000 then Option.none
            else Option.some (.dbl (conv display_value))
    | .integer =>
        match pint (py_strip value) with
        | Option.none => Option.none
        | Option.some n =>
            if p.currentInt = n then Option.none else Option.some (.int n)
    | .elementId =>
        match pint (py_strip value) with
        | Option.none => Option.none
        | Option.some n =>
            if p.currentElemId = n then Option.none else Option.some (.elemId n)
    | .noneType => Option.none

/-- Host-side effect of the import decision on the parameter: `Option.none`
means no `Set` call, so the parameter keeps its exact previous value. -/
def import_apply (p : ImportParam) : Option ParamValue → ImportParam
  | Option.none => p
  | Option.some (.str s) => { p with currentString := Option.some s }
  | Option.some (.int n) => { p with currentInt := n }
  | Option.some (.dbl x) => { p with currentDouble := x }
  | Option.some (.elemId n) => { p with currentElemId := n }

/-- C10: the Schedule EXIM CSV import sets a writable parameter only when
the incoming CSV value differs from the parameter's current value.  String,
Integer and ElementId parameters whose current value equals the parsed CSV
value are skipped; Double parameters are skipped when the CSV value
converted to internal units is within `1e-6` of the current internal value;
every skipped parameter retains its exact previous value; and every `Set`
that does happen writes a value different from the current one. -/
theorem c10_import_skips_unchanged
    (pfloat : String → Option Rat) (pint : String → Option Int)
    (conv : Rat → Rat) (utp : Bool) (p : ImportParam) (value : String) :
    (p.storageType = .string → p.currentString.getD "" = py_strip value →
      import_update pfloat pint conv utp p value = Option.none ∧
      import_apply p (import_update pfloat pint conv utp p value) = p) ∧
    (∀ n, p.storageType = .integer → pint (py_strip value) = Option.some n →
      p.currentInt = n →
      import_update pfloat pint conv utp p value = Option.none ∧
      import_apply p (import_update pfloat pint conv utp p value) = p) ∧
    (∀ n, p.storageType = .elementId → pint (py_strip value) = Option.some n →
      p.currentElemId = n →
      import_update pfloat pint conv utp p value = Option.none ∧
      import_apply p (import_update pfloat pint conv utp p value) = p) ∧
    (∀ d, p.storageType = .double → pfloat (py_strip value) = Option.some d →
      |p.currentDouble - conv d| < 1 / 1000000 →
      import_update pfloat pint conv utp p value = Option.none ∧
      import_apply p (import_update pfloat pint conv utp p value) = p) ∧
    (∀ s, import_update pfloat pint conv utp p value = Option.some (.str s) →
      s = py_strip value ∧ p.currentString.getD "" ≠ s) ∧
    (∀ n, import_update pfloat pint conv utp p value = Option.some (.int n) →
      pint (py_strip value) = Option.some n ∧ p.currentInt ≠ n) ∧
    (∀ n, import_update pfloat pint conv utp p value = Option.some (.elemId n) →
      pint (py_strip value) = Option.some n ∧ p.currentElemId ≠ n) ∧
    (∀ x, import_update pfloat pint conv utp p value = Option.some (.dbl x) →
      ∃ d, pfloat (py_strip value) = Option.some d ∧ x = conv d ∧
        1 / 1000000 ≤ |p.currentDouble - x|) := by
  refine ⟨?_, ?_, ?_, ?_, ?_, ?_, ?_, ?_⟩
  · intro hst heq
    unfold import_update
    simp only [hst, if_pos heq, ite_self]
    exact ⟨trivial, rfl⟩
  · intro n hst hparse heq
    unfold import_update
    simp only [hst, hparse, if_pos heq, ite_self]
    exact ⟨trivial, rfl⟩
  · intro n hst hparse heq
    unfold import_update
    simp only [hst, hparse, if_pos heq, ite_self]
    exact ⟨trivial, rfl⟩
  · intro d hst hparse hclose
    unfold import_update
    simp only [hst, hparse, if_pos hclose, ite_self]
    exact ⟨trivial, rfl⟩
  · intro s h
    unfold import_update at h
    split at h
    · exact Option.noConfusion h
    · split at h
      · exact Option.noConfusion h
      · split at h
        · split at h
          · exact Option.noConfusion h
          · rename_i hne
            have heq := ParamValue.str.inj (Option.some.inj h)
            exact ⟨heq.symm, heq ▸ hne⟩
        · split at h
          · exact Option.noConfusion h
          · split at h
            · exact Option.noConfusion h
            · exact ParamValue.noConfusion (Option.some.inj h)
        · split at h
          · exact Option.noConfusion h
          · split at h
            · exact Option.noConfusion h
            · exact ParamValue.noConfusion (Option.some.inj h)
        · split at h
          · exact Option.noConfusion h
          · split at h
            · exact Option.noConfusion h
            · exact ParamValue.noConfusion (Option.some.inj h)
        · exact Option.noConfusion h
  · intro n h
    unfold import_update at h
    split at h
    · exact Option.noConfusion h
    · split at h
      · exact Option.noConfusion h
      · split at h
        · split at h
          · exact Option.noConfusion h
          · exact ParamValue.noConfusion (Option.some.inj h)
        · split at h
          · exact Option.noConfusion h
          · split at h
            · exact Option.noConfusion h
            · exact ParamValue.noConfusion (Option.some.inj h)
        · split at h
          · exact Option.noConfusion h
          · split at h
            · exact Option.noConfusion h
            · rename_i m hm hne
              have heq2 := ParamValue.int.inj (Option.some.inj h)
              subst heq2
              exact ⟨hm, hne⟩
        · split at h
          · exact Option.noConfusion h
          · split at h
            · exact Option.noConfusion h
            · exact ParamValue.noConfusion (Option.some.inj h)
        · exact Option.noConfusion h
  · intro n h
    unfold import_update at h
    split at h
    · exact Option.noConfusion h
    · split at h
      · exact Option.noConfusion h
      · split at h
        · split at h
          · exact Option.noConfusion h
          · exact ParamValue.noConfusion (Option.some.inj h)
        · split at h
          · exact Option.noConfusion h
          · split at h
            · exact Option.noConfusion h
            · exact ParamValue.noConfusion (Option.some.inj h)
        · split at h
          · exact Option.noConfusion h
          · split at h
            · exact Option.noConfusion h
            · exact ParamValue.noConfusion (Option.some.inj h)
        · split at h
          · exact Option.noConfusion h
          · split at h
            · exact Option.noConfusion h
            · rename_i m hm hne
              have heq2 := ParamValue.elemId.inj (Option.some.inj h)
              subst heq2
              exact ⟨hm, hne⟩
        · exact Option.noConfusion h
  · intro x h
    unfold import_update at h
    split at h
    · exact Option.noConfusion h
    · split at h
      · exact Option.noConfusion h
      · split at h
        · split at h
          · exact Option.noConfusion h
          · exact ParamValue.noConfusion (Option.some.inj h)
        · split at h
          · exact Option.noConfusion h
          · split at h
            · exact Option.noConfusion h
            · rename_i dv hdv hne
              have heq2 := ParamValue.dbl.inj (Option.some.inj h)
              refine ⟨dv, hdv, heq2.symm, ?_⟩
              rw [← heq2]
              exact le_of_not_lt hne
        · split at h
          · exact Option.noConfusion h
          · split at h
            · exact Option.noConfusion h
            · exact ParamValue.noConfusion (Option.some.inj h)
        · split at h
          · exact Option.noConfusion h
          · split at h
            · exact Option.noConfusion h
            · exact ParamValue.noConfusion (Option.some.inj h)
        · exact Option.noConfusion h

/-- Witness for C10 at concrete inputs: a String parameter whose current
value `"abc"` equals the stripped CSV value `" abc "` is skipped unchanged,
and a Double parameter within `1e-6` of the converted CSV value is skipped
unchanged. -/
theorem c10_import_skips_unchanged_witness :
    (import_update (fun _ => Option.none) (fun _ => Option.none) (fun x => x)
        true ⟨.string, false, false, Option.some "abc", 0, 0, 0⟩ " abc " =
      Option.none) ∧
    (import_update (fun _ => Option.some 0) (fun _ => Option.none) (fun x => x)
        true ⟨.double, false, false, Option.none, 0, 0, 0⟩ "0" =
      Option.none) :=
  ⟨((c10_import_skips_unchanged (fun _ => Option.none) (fun _ => Option.none)
      (fun x => x) true ⟨.string, false, false, Option.some "abc", 0, 0, 0⟩
      " abc ").1 rfl (by decide)).1,
   ((c10_import_skips_unchanged (fun _ => Option.some 0) (fun _ => Option.none)
      (fun x => x) true ⟨.double, false, false, Option.none, 0, 0, 0⟩
      "0").2.2.2.1 0 rfl rfl (by norm_num)).1⟩

/-- A Revit element as seen by the copy-pasted `get_categories` helpers:
whether it is an element type, and its category's name (`Option.none` when
`element.Category` is `None`).  Python's truthiness test
`element.Category and element.Category.Name` additionally rejects an empty
name string. -/
structure RElement where
  isElementType : Bool
  categoryName : Option String
deriving DecidableEq, Repr

/-- A Revit document, reduced to the list of elements its
`FilteredElementCollector` yields. -/
structure RDocument where
  elements : List RElement
deriving DecidableEq, Repr

/-- Python `set.add` on a duplicate-free accumulation list. -/
def set_add (s : List String) (n : String) : List String :=
  if n ∈ s then s else s ++ [n]

namespace ElementID

/-- Embedding of `get_categories(doc)` from the Element ID script
(`script.py` lines 9-17): collect the category names of all non-element-type
elements whose `Category` and `Category.Name` are truthy into a set, then
return `sorted(list(categories))`. -/
def get_categories (doc : RDocument) : List String :=
  List.insertionSort (fun a b => a ≤ b)
    ((doc.elements.filter (fun e => !e.isElementType)).foldl
      (fun s e =>
        match e.categoryName with
        | Option.some n => if n = "" then s else set_add s n
        | Option.none => s) [])

end ElementID

namespace ParamCopier

/-- Embedding of `get_categories(doc)` from the Parameter Value Copier
script (`script.py` lines 5-14); the body is a line-for-line copy of the
Element ID version. -/
def get_categories (doc : RDocument) : List String :=
  List.insertionSort (fun a b => a ≤ b)
    ((doc.elements.filter (fun e => !e.isElementType)).foldl
      (fun s e =>
        match e.categoryName with
        | Option.some n => if n = "" then s else set_add s n
        | Option.none => s) [])

end ParamCopier

namespace AssignLevel

/-- Embedding of `get_categories(doc)` from the Assign Level script
(`script.py` lines 24-31); the body is a line-for-line copy of the Element
ID version. -/
def get_categories (doc : RDocument) : List String :=
  List.insertionSort (fun a b => a ≤ b)
    ((doc.elements.filter (fun e => !e.isElementType)).foldl
      (fun s e =>
        match e.categoryName with
        | Option.some n => if n = "" then s else set_add s n
        | Option.none => s) [])

end AssignLevel

theorem set_add_mem (s : List String) (m n : String) :
    n ∈ set_add s m ↔ n ∈ s ∨ n = m := by
  unfold set_add
  split
  · rename_i hmem
    constructor
    · exact Or.inl
    · rintro (h | h)
      · exact h
      · exact h ▸ hmem
  · simp

theorem set_add_nodup (s : List String) (m : String) (h : s.Nodup) :
    (set_add s m).Nodup := by
  unfold set_add
  split
  · exact h
  · rename_i hmem
    simpa [List.nodup_append] using ⟨h, hmem⟩

/-- The loop body of the copied `get_categories` helpers. -/
def collect_step (s : List String) (e : RElement) : List String :=
  match e.categoryName with
  | Option.some n => if n = "" then s else set_add s n
  | Option.none => s

theorem collect_step_mem (s : List String) (e : RElement) (n : String) :
    n ∈ collect_step s e ↔ n ∈ s ∨ (e.categoryName = Option.some n ∧ n ≠ "") := by
  unfold collect_step
  cases he : e.categoryName with
  | none => simp
  | some m =>
      show (n ∈ if m = "" then s else set_add s m) ↔
        n ∈ s ∨ (Option.some m = Option.some n ∧ n ≠ "")
      by_cases hm : m = ""
      · subst hm
        rw [if_pos rfl]
        constructor
        · exact Or.inl
        · rintro (h | ⟨h1, h2⟩)
          · exact h
          · exact absurd (Option.some.inj h1).symm h2
      · rw [if_neg hm, set_add_mem]
        constructor
        · rintro (h | h)
          · exact Or.inl h
          · exact Or.inr ⟨h ▸ rfl, h ▸ hm⟩
        · rintro (h | ⟨h1, _⟩)
          · exact Or.inl h
          · exact Or.inr (Option.some.inj h1).symm

theorem collect_step_nodup (s : List String) (e : RElement) (h : s.Nodup) :
    (collect_step s e).Nodup := by
  unfold collect_step
  cases he : e.categoryName with
  | none => exact h
  | some m =>
      show (if m = "" then s else set_add s m).Nodup
      by_cases hm : m = ""
      · rwa [if_pos hm]
      · rw [if_neg hm]
        exact set_add_nodup s m h

theorem collect_foldl_mem (es : List RElement) :
    ∀ (acc : List String) (n : String),
      n ∈ es.foldl collect_step acc ↔
        n ∈ acc ∨ ∃ e ∈ es, e.categoryName = Option.some n ∧ n ≠ "" := by
  induction es with
  | nil => intro acc n; simp
  | cons e rest ih =>
      intro acc n
      rw [List.foldl_cons, ih, collect_step_mem]
      constructor
      · rintro ((h | h) | ⟨e', he', h⟩)
        · exact Or.inl h
        · exact Or.inr ⟨e, List.mem_cons_self _ _, h⟩
        · exact Or.inr ⟨e', List.mem_cons_of_mem _ he', h⟩
      · rintro (h | ⟨e', he', h⟩)
        · exact Or.inl (Or.inl h)
        · rcases List.mem_cons.mp he' with he'' | he''
          · exact Or.inl (Or.inr (he'' ▸ h))
          · exact Or.inr ⟨e', he'', h⟩

theorem collect_foldl_nodup (es : List RElement) :
    ∀ acc : List String, acc.Nodup → (es.foldl collect_step acc).Nodup := by
  induction es with
  | nil => intro acc h; exact h
  | cons e rest ih =>
      intro acc h
      rw [List.foldl_cons]
      exact ih _ (collect_step_nodup acc e h)

/-- C6: the three copy-pasted `get_categories` helpers (Element ID,
Parameter Value Copier, Assign Level) are behaviorally identical on every
document, and their common result is the sorted, duplicate-free list of
category names of non-element-type elements that have a named (nonempty)
category. -/
theorem c6_get_categories_equivalent (doc : RDocument) :
    ElementID.get_categories doc = ParamCopier.get_categories doc ∧
    ParamCopier.get_categories doc = AssignLevel.get_categories doc ∧
    List.Sorted (fun a b => a ≤ b) (ElementID.get_categories doc) ∧
    (ElementID.get_categories doc).Nodup ∧
    ∀ n, n ∈ ElementID.get_categories doc ↔
      ∃ e ∈ doc.elements, e.isElementType = false ∧
        e.categoryName = Option.some n ∧ n ≠ "" := by
  have hbody : ElementID.get_categories doc =
      List.insertionSort (fun a b => a ≤ b)
        ((doc.elements.filter (fun e => !e.isElementType)).foldl collect_step []) := rfl
  refine ⟨rfl, rfl, ?_, ?_, ?_⟩
  · exact List.sorted_insertionSort _ _
  · rw [hbody]
    exact (List.Perm.nodup_iff (List.perm_insertionSort _ _)).mpr
      (collect_foldl_nodup _ [] List.nodup_nil)
  · intro n
    rw [hbody, List.mem_insertionSort, collect_foldl_mem]
    constructor
    · rintro (h | ⟨e, he, h⟩)
      · exact absurd h (List.not_mem_nil n)
      · obtain ⟨hmem, hfilt⟩ := List.mem_filter.mp he
        exact ⟨e, hmem, by simpa using hfilt, h⟩
    · rintro ⟨e, he, hty, h⟩
      exact Or.inr ⟨e, List.mem_filter.mpr ⟨he, by simpa using hty⟩, h⟩

/-- Outcome of a Revit transaction block. -/
inductive TxOutcome where
  | committed
  | rolledBack
deriving DecidableEq, Repr

/-- One row of the Schedule EXIM CSV import loop, as the effect it attempts
on the document: `ok f` applies the row's parameter writes to the pending
transaction state; `raises` is an exception caught by the per-row handler,
after which the user is asked to Continue or Abort; `unsupported` is the
"Unsupported unique identifier parameter type" branch, which sets
`user_wants_to_abort` and breaks out of the loop. -/
inductive ImportRow (Doc : Type) where
  | ok (f : Doc → Doc)
  | raises
  | unsupported

/-- Result of the row loop of `import_csv_to_revit`: the loop finished
normally with a pending state, broke out with the abort flag set, or
returned early after the user chose Abort on a caught error. -/
inductive ImportLoopResult (Doc : Type) where
  | finished (pending : Doc)
  | abortFlag
  | earlyReturn

/-- The row loop of `import_csv_to_revit` (Schedule EXIM `script.py` lines
196-343).  `choices` are the user's answers to the per-error
Continue/Abort dialog (`true` = Continue); a missing answer behaves like
Abort, as in the code (`if user_choice == "Abort" or not user_choice`). -/
def import_loop {Doc : Type} : List (ImportRow Doc) → List Bool → Doc → ImportLoopResult Doc
  | [], _, pending => .finished pending
  | .ok f :: rest, choices, pending => import_loop rest choices (f pending)
  | .raises :: rest, choices, pending =>
      match choices with
      | [] => .earlyReturn
      | c :: cs => if c then import_loop rest cs pending else .earlyReturn
  | .unsupported :: _, _, _ => .abortFlag

/-- Embedding of the transaction skeleton of `import_csv_to_revit`
(Schedule EXIM `script.py` lines 196-349): `t.Start()` opens the transaction
on document state `d`; the row loop updates the pending state; the early
Abort return and the abort flag call `t.RollBack()`; an unexpected error
(`outer_raises`) reaches the outer `except` handler, which calls
`t.RollBack()`; only the normal exit calls `t.Commit()`.  A rolled-back
transaction restores the pre-transaction state — the Revit transaction
manager's guarantee, which the spec assumes of the host. -/
def import_run {Doc : Type} (d : Doc) (rows : List (ImportRow Doc))
    (choices : List Bool) (outer_raises : Bool) : Doc × TxOutcome :=
  match import_loop rows choices d with
  | .earlyReturn => (d, .rolledBack)
  | .abortFlag => (d, .rolledBack)
  | .finished pending =>
      if outer_raises then (d, .rolledBack) else (pending, .committed)

/-- One instance processed by `assign_levels` (Assign Level `script.py`
lines 339-384): `ok f` is an iteration whose writes (including any partial
writes before an error caught by the inner per-instance handler) land in the
pending state; `raisesOuter` is an exception that escapes to the outer
`except` handler of the transaction. -/
inductive AssignStep (Doc : Type) where
  | ok (f : Doc → Doc)
  | raisesOuter

/-- The instance loop of `assign_levels`: `Option.none` when an exception
escapes to the outer handler. -/
def assign_loop {Doc : Type} : List (AssignStep Doc) → Doc → Option Doc
  | [], pending => Option.some pending
  | .ok f :: rest, pending => assign_loop rest (f pending)
  | .raisesOuter :: _, _ => Option.none

/-- Embedding of the transaction skeleton of `assign_levels` (Assign Level
`script.py` lines 339-384): `t.Start()`, the instance loop, then
`t.Commit()`; the outer `except` calls `t.RollBack()`, both when the loop
raises and when `t.Commit()` itself raises (`commit_raises`). -/
def assign_levels_run {Doc : Type} (d : Doc) (steps : List (AssignStep Doc))
    (commit_raises : Bool) : Doc × TxOutcome :=
  match assign_loop steps d with
  | Option.none => (d, .rolledBack)
  | Option.some pending =>
      if commit_raises then (d, .rolledBack) else (pending, .committed)

/-- Embedding of pyRevit's `with revit.Transaction(...)` context manager
(used by the Clash Data and Import CSV Data write loops, `script.py` line
379 resp. 490): the body runs against the pending state; normal exit
commits, an exception rolls back to the pre-transaction state. -/
def with_revit_transaction {Doc : Type} (d : Doc)
    (body : Doc → Except String Doc) : Doc × TxOutcome :=
  match body d with
  | Except.ok d2 => (d2, .committed)
  | Except.error _ => (d, .rolledBack)

/-- C1: whenever a failure occurs during a mutating operation, the enclosing
transaction is rolled back and the document is left in its pre-transaction
state: the Schedule EXIM CSV import rolls back (to the initial document) on
any unexpected error or user abort, the Assign Level update rolls back when
its transaction raises, and the pyRevit transaction wrapper rolls back when
its body raises — in each case no write made inside the failed transaction
survives. -/
theorem c1_rollback_restores_document (Doc : Type) (d : Doc)
    (rows : List (ImportRow Doc)) (choices : List Bool) (outer_raises : Bool)
    (steps : List (AssignStep Doc)) (commit_raises : Bool)
    (body : Doc → Except String Doc) :
    ((import_run d rows choices outer_raises).2 = .rolledBack →
      (import_run d rows choices outer_raises).1 = d) ∧
    ((assign_levels_run d steps commit_raises).2 = .rolledBack →
      (assign_levels_run d steps commit_raises).1 = d) ∧
    ((with_revit_transaction d body).2 = .rolledBack →
      (with_revit_transaction d body).1 = d) := by
  refine ⟨?_, ?_, ?_⟩
  · unfold import_run
    cases import_loop rows choices d with
    | earlyReturn => intro _; rfl
    | abortFlag => intro _; rfl
    | finished pending =>
        cases outer_raises with
        | true => intro _; rfl
        | false => intro h; exact TxOutcome.noConfusion h
  · unfold assign_levels_run
    cases assign_loop steps d with
    | none => intro _; rfl
    | some pending =>
        cases commit_raises with
        | true => intro _; rfl
        | false => intro h; exact TxOutcome.noConfusion h
  · unfold with_revit_transaction
    cases body d with
    | ok d2 => intro h; exact TxOutcome.noConfusion h
    | error e => intro _; rfl

/-- Witness for C1 at concrete inputs: an import loop aborted by the user,
an Assign Level run whose transaction raises, and a wrapper body that
raises, each leave the document (here the state `7 : Nat`) unchanged. -/
theorem c1_rollback_restores_document_witness :
    (import_run (7 : Nat) [ImportRow.ok (fun n => n + 1), ImportRow.raises]
        [] false).1 = 7 ∧
    (assign_levels_run (7 : Nat)
        [AssignStep.ok (fun n => n + 1), AssignStep.raisesOuter] false).1 = 7 ∧
    (with_revit_transaction (7 : Nat)
        (fun _ => Except.error "boom")).1 = 7 :=
  ⟨(c1_rollback_restores_document Nat 7
      [ImportRow.ok (fun n => n + 1), ImportRow.raises] [] false [] false
      (fun n => Except.ok n)).1 rfl,
   (c1_rollback_restores_document Nat 7 [] [] false
      [AssignStep.ok (fun n => n + 1), AssignStep.raisesOuter] false
      (fun n => Except.ok n)).2.1 rfl,
   (c1_rollback_restores_document Nat 7 [] [] false [] false
      (fun _ => Except.error "boom")).2.2 rfl⟩

/-- An event in a script's execution trace: opening a transaction
(`t.Start()` or entering `with revit.Transaction(...)`), closing it
(`t.Commit()`, `t.RollBack()`, or leaving the `with` block), or a document
mutation (a `param.Set` call, crop-box assignment, `SketchPlane.Create`,
`SetWorkPlane`, `RemoveInstanceVoidCut`, `NewDimension`, `CopyElements`). -/
inductive Event where
  | txOpen
  | txClose
  | write
deriving DecidableEq, Repr

/-- `writes_inside_tx tr depth = true` when every `write` of `tr` happens
while at least one transaction is open, starting from `depth` open
transactions. -/
def writes_inside_tx : List Event → Nat → Bool
  | [], _ => true
  | Event.txOpen :: es, depth => writes_inside_tx es (depth + 1)
  | Event.txClose :: es, depth => writes_inside_tx es (depth - 1)
  | Event.write :: es, depth => decide (0 < depth) && writes_inside_tx es depth

/-- Open-transaction depth after a trace prefix. -/
def depth_after : List Event → Nat → Nat
  | [], d => d
  | Event.txOpen :: es, d => depth_after es (d + 1)
  | Event.txClose :: es, d => depth_after es (d - 1)
  | Event.write :: es, d => depth_after es d

theorem writes_inside_tx_append :
    ∀ (xs ys : List Event) (d : Nat),
      writes_inside_tx (xs ++ ys) d =
        (writes_inside_tx xs d && writes_inside_tx ys (depth_after xs d)) := by
  intro xs
  induction xs with
  | nil => intro ys d; rfl
  | cons e rest ih =>
      intro ys d
      cases e with
      | txOpen => exact ih ys (d + 1)
      | txClose => exact ih ys (d - 1)
      | write =>
          show (decide (0 < d) && writes_inside_tx (rest ++ ys) d) =
            ((decide (0 < d) && writes_inside_tx rest d) &&
              writes_inside_tx ys (depth_after rest d))
          rw [ih ys d, Bool.and_assoc]

theorem writes_inside_tx_all_writes :
    ∀ (ws : List Event), (∀ e ∈ ws, e = Event.write) →
      ∀ d : Nat, 0 < d → writes_inside_tx ws d = true := by
  intro ws
  induction ws with
  | nil => intro _ d _; rfl
  | cons e rest ih =>
      intro h d hd
      have he : e = Event.write := h e (List.mem_cons_self _ _)
      subst he
      have hrest := ih (fun e2 he2 => h e2 (List.mem_cons_of_mem _ he2)) d hd
      simp [writes_inside_tx, hd, hrest]

theorem depth_after_all_writes :
    ∀ (ws : List Event), (∀ e ∈ ws, e = Event.write) →
      ∀ d : Nat, depth_after ws d = d := by
  intro ws
  induction ws with
  | nil => intro _ _; rfl
  | cons e rest ih =>
      intro h d
      have he : e = Event.write := h e (List.mem_cons_self _ _)
      subst he
      exact ih (fun e2 he2 => h e2 (List.mem_cons_of_mem _ he2)) d

/-- One `with Transaction: ... writes ...` block keeps its writes inside the
transaction and restores the outer depth. -/
theorem tx_block_ok (ws : List Event) (h : ∀ e ∈ ws, e = Event.write) (d : Nat) :
    writes_inside_tx (Event.txOpen :: (ws ++ [Event.txClose])) d = true ∧
    depth_after (Event.txOpen :: (ws ++ [Event.txClose])) d = d := by
  constructor
  · show writes_inside_tx (ws ++ [Event.txClose]) (d + 1) = true
    rw [writes_inside_tx_append]
    rw [writes_inside_tx_all_writes ws h (d + 1) (Nat.succ_pos d)]
    rw [depth_after_all_writes ws h (d + 1)]
    rfl
  · show depth_after (ws ++ [Event.txClose]) (d + 1) = d
    have : depth_after (ws ++ [Event.txClose]) (d + 1) =
        depth_after [Event.txClose] (depth_after ws (d + 1)) := by
      induction ws generalizing d with
      | nil => rfl
      | cons e rest ih =>
          have he : e = Event.write := h e (List.mem_cons_self _ _)
          subst he
          exact ih (fun e2 he2 => h e2 (List.mem_cons_of_mem _ he2)) d
    rw [this, depth_after_all_writes ws h (d + 1)]
    rfl

/-- Elements of a join of per-iteration write lists are all writes. -/
theorem all_write_join {α : Type} (f : α → List Event)
    (h : ∀ a : α, ∀ e ∈ f a, e = Event.write) (xs : List α) :
    ∀ e ∈ (xs.map f).flatten, e = Event.write := by
  intro e he
  rw [List.mem_flatten] at he
  obtain ⟨l, hl, hel⟩ := he
  rw [List.mem_map] at hl
  obtain ⟨a, _, rfl⟩ := hl
  exact h a e hel

/-- A sequence of complete transaction blocks keeps all writes inside
transactions. -/
theorem tx_blocks_ok (blocks : List (List Event))
    (h : ∀ b ∈ blocks, ∀ e ∈ b, e = Event.write) :
    writes_inside_tx
      ((blocks.map (fun ws => Event.txOpen :: (ws ++ [Event.txClose]))).flatten) 0 = true := by
  induction blocks with
  | nil => rfl
  | cons b rest ih =>
      rw [List.map_cons, List.flatten_cons, writes_inside_tx_append]
      have hb := tx_block_ok b (h b (List.mem_cons_self _ _)) 0
      rw [hb.1, hb.2]
      rw [ih (fun b2 hb2 => h b2 (List.mem_cons_of_mem _ hb2))]
      rfl

/-- Per-element writes of the Element ID script's mutation loop
(`script.py` lines 108-114): one `param.Set(element.Id.IntegerValue)` when
`LookupParameter` found the parameter and its storage type is Integer. -/
def elementID_writes (p : Option StorageType) : List Event :=
  if p = Option.some StorageType.integer then [Event.write] else []

/-- Embedding of the Element ID script's only mutation phase: every `Set`
happens between `t.Start()` and `t.Commit()`. -/
def elementID_trace (params : List (Option StorageType)) : List Event :=
  Event.txOpen :: ((params.map elementID_writes).flatten ++ [Event.txClose])

/-- Per-instance writes of `copy_parameter_values` (Parameter Value Copier
`script.py` lines 69-119): one `target_param.Set` when both parameters were
found and either the target is a String parameter or the storage types
match; otherwise an alert and no write. -/
def copier_writes (pr : Option (StorageType × StorageType)) : List Event :=
  match pr with
  | Option.none => []
  | Option.some (src, tgt) =>
      if tgt = StorageType.string ∨ src = tgt then [Event.write] else []

/-- Embedding of the Parameter Value Copier mutation phase. -/
def paramCopier_trace (pairs : List (Option (StorageType × StorageType))) : List Event :=
  Event.txOpen :: ((pairs.map copier_writes).flatten ++ [Event.txClose])

/-- Embedding of the Assign Level `assign_levels` transaction (`script.py`
lines 339-384): each processed instance contributes its level-parameter
`Set` calls, `SketchPlane.Create`/`SetWorkPlane`, and offset `Set`, all
between `t.Start()` and `t.Commit()`/`t.RollBack()`. -/
def assignLevel_tx_trace (writes_per_instance : List Nat) : List Event :=
  Event.txOpen ::
    ((writes_per_instance.map (fun n => List.replicate n Event.write)).flatten ++
      [Event.txClose])

/-- Embedding of the Uncut `Auto-Uncut Geometry` transaction (`script.py`
lines 147-151): each instance contributes one `RemoveInstanceVoidCut` per
cut element. -/
def uncut_trace (cuts_per_instance : List Nat) : List Event :=
  Event.txOpen ::
    ((cuts_per_instance.map (fun n => List.replicate n Event.write)).flatten ++
      [Event.txClose])

/-- Embedding of the Schedule EXIM `Import CSV Data` transaction
(`script.py` lines 196-349): rows processed before any abort contribute
their `param.Set` calls between `t.Start()` and `t.Commit()`/`t.RollBack()`. -/
def scheduleEXIM_import_trace (row_writes : List Nat) (processed : Nat) : List Event :=
  Event.txOpen ::
    (((row_writes.take processed).map (fun n => List.replicate n Event.write)).flatten ++
      [Event.txClose])

/-- Per-element write of the Clash Data and Import CSV Data write loops:
one `primary_param.Set` or none. -/
def bool_writes (b : Bool) : List Event :=
  if b then [Event.write] else []

/-- Embedding of the Clash Data `with revit.Transaction(...)` write loop
(`script.py` lines 379-588). -/
def clashData_trace (wrote : List Bool) : List Event :=
  Event.txOpen :: ((wrote.map bool_writes).flatten ++ [Event.txClose])

/-- Embedding of the Import CSV Data `with revit.Transaction(...)` write
loop (`script.py` lines 490-676). -/
def importCSVData_trace (wrote : List Bool) : List Event :=
  Event.txOpen :: ((wrote.map bool_writes).flatten ++ [Event.txClose])

/-- Embedding of the Copy Linked Items `with revit.Transaction(...)` block
(`script.py` lines 259-287): one `CopyElements` per linked document that
resolves. -/
def copyLinked_trace (copies : List Bool) : List Event :=
  Event.txOpen :: ((copies.map bool_writes).flatten ++ [Event.txClose])

/-- Embedding of the Dimension All transaction (`script.py` lines 444-537):
`create_dimensions` makes its `NewDimension` calls between `t.Start()` and
`t.Commit()`/`t.RollBack()`. -/
def dimensionAll_trace (dims : Nat) : List Event :=
  Event.txOpen :: (List.replicate dims Event.write ++ [Event.txClose])

/-- Embedding of the Dimension All Prototype per-view transactions
(`script.py` lines 182-189): one complete transaction block per processed
view. -/
def dimensionProto_trace (dims_per_view : List Nat) : List Event :=
  ((dims_per_view.map
    (fun n => Event.txOpen :: (List.replicate n Event.write ++ [Event.txClose]))).flatten)

/-- Embedding of the CropView script's mutation phases (`script.py` lines
35-41 and 160-172): the optional `Enable Cropping` transaction writes
`CropBoxActive` and `CropBoxVisible`; the `Adjust Crop Region` transaction
writes `CropBoxActive`, `CropBoxVisible` and `CropBox` (fewer when an
exception interrupts it, before the rollback). -/
def cropView_trace (needs_enable : Bool) (adjust_writes : Nat) : List Event :=
  (if needs_enable then
    Event.txOpen :: ([Event.write, Event.write] ++ [Event.txClose])
  else []) ++
    (Event.txOpen :: (List.replicate adjust_writes Event.write ++ [Event.txClose]))

theorem elementID_writes_all (p : Option StorageType) :
    ∀ e ∈ elementID_writes p, e = Event.write := by
  intro e he
  unfold elementID_writes at he
  split at he
  · exact List.mem_singleton.mp he
  · exact absurd he (List.not_mem_nil e)

theorem copier_writes_all (pr : Option (StorageType × StorageType)) :
    ∀ e ∈ copier_writes pr, e = Event.write := by
  intro e he
  rcases pr with _ | ⟨src, tgt⟩
  · exact absurd he (List.not_mem_nil e)
  · simp only [copier_writes] at he
    by_cases h : tgt = StorageType.string ∨ src = tgt
    · rw [if_pos h] at he
      exact List.mem_singleton.mp he
    · rw [if_neg h] at he
      exact absurd he (List.not_mem_nil e)

theorem bool_writes_all (b : Bool) : ∀ e ∈ bool_writes b, e = Event.write := by
  intro e he
  unfold bool_writes at he
  split at he
  · exact List.mem_singleton.mp he
  · exact absurd he (List.not_mem_nil e)

theorem replicate_writes_all (n : Nat) :
    ∀ e ∈ List.replicate n Event.write, e = Event.write := by
  intro e he
  exact List.eq_of_mem_replicate he

/-- C5: in every script's mutation phase, every document mutation happens
between the opening (`t.Start()` / entering `with revit.Transaction`) and
the closing (`t.Commit()` / `t.RollBack()` / leaving the `with` block) of a
Revit transaction; no script writes to the document outside a
transaction. -/
theorem c5_writes_only_inside_transactions
    (params : List (Option StorageType))
    (pairs : List (Option (StorageType × StorageType)))
    (assign_ws uncut_ws row_ws dims_per_view : List Nat)
    (processed dims adjust_writes : Nat)
    (clash_ws csv_ws copy_ws : List Bool) (needs_enable : Bool) :
    writes_inside_tx (elementID_trace params) 0 = true ∧
    writes_inside_tx (paramCopier_trace pairs) 0 = true ∧
    writes_inside_tx (assignLevel_tx_trace assign_ws) 0 = true ∧
    writes_inside_tx (uncut_trace uncut_ws) 0 = true ∧
    writes_inside_tx (scheduleEXIM_import_trace row_ws processed) 0 = true ∧
    writes_inside_tx (clashData_trace clash_ws) 0 = true ∧
    writes_inside_tx (importCSVData_trace csv_ws) 0 = true ∧
    writes_inside_tx (copyLinked_trace copy_ws) 0 = true ∧
    writes_inside_tx (dimensionAll_trace dims) 0 = true ∧
    writes_inside_tx (dimensionProto_trace dims_per_view) 0 = true ∧
    writes_inside_tx (cropView_trace needs_enable adjust_writes) 0 = true := by
  refine ⟨?_, ?_, ?_, ?_, ?_, ?_, ?_, ?_, ?_, ?_, ?_⟩
  · exact (tx_block_ok _ (all_write_join _ elementID_writes_all params) 0).1
  · exact (tx_block_ok _ (all_write_join _ copier_writes_all pairs) 0).1
  · exact (tx_block_ok _ (all_write_join _ replicate_writes_all assign_ws) 0).1
  · exact (tx_block_ok _ (all_write_join _ replicate_writes_all uncut_ws) 0).1
  · exact (tx_block_ok _
      (all_write_join _ replicate_writes_all (row_ws.take processed)) 0).1
  · exact (tx_block_ok _ (all_write_join _ bool_writes_all clash_ws) 0).1
  · exact (tx_block_ok _ (all_write_join _ bool_writes_all csv_ws) 0).1
  · exact (tx_block_ok _ (all_write_join _ bool_writes_all copy_ws) 0).1
  · exact (tx_block_ok _ (replicate_writes_all dims) 0).1
  · have hblocks := tx_blocks_ok
      (dims_per_view.map (fun n => List.replicate n Event.write))
      (by
        intro b hb
        rw [List.mem_map] at hb
        obtain ⟨n, _, rfl⟩ := hb
        exact replicate_writes_all n)
    rw [List.map_map] at hblocks
    exact hblocks
  · cases needs_enable with
    | false =>
        show writes_inside_tx ([] ++ _) 0 = true
        rw [List.nil_append]
        exact (tx_block_ok _ (replicate_writes_all adjust_writes) 0).1
    | true =>
        show writes_inside_tx
          ((Event.txOpen :: ([Event.write, Event.write] ++ [Event.txClose])) ++
            (Event.txOpen ::
              (List.replicate adjust_writes Event.write ++ [Event.txClose]))) 0 = true
        rw [writes_inside_tx_append]
        have h1 := tx_block_ok [Event.write, Event.write] (by decide) 0
        rw [h1.1, h1.2]
        rw [(tx_block_ok _ (replicate_writes_all adjust_writes) 0).1]
        rfl

/-- The file-lock check loop of `export_schedule_to_csv` (Schedule EXIM
`script.py` lines 80-87): `while is_file_locked(csv_file_path):` prompts
Retry/Abort; Retry loops (re-running `is_file_locked`), Abort or a dismissed
dialog returns.  `locks` are the successive `is_file_locked` results
(`true` = locked, exhausted oracle = unlocked); `choices` are the user's
answers (`true` = Retry).  Returns the number of `is_file_locked` calls
performed and whether the export proceeded to the CSV writing phase. -/
def lock_loop : List Bool → List Bool → Nat × Bool
  | [], _ => (1, true)
  | locked :: rest_locks, choices =>
      if locked then
        match choices with
        | [] => (1, false)
        | c :: cs =>
            if c then
              ((lock_loop rest_locks cs).1 + 1, (lock_loop rest_locks cs).2)
            else (1, false)
      else (1, true)

/-- C7 counterexample: the claim "a step that fails is never re-executed"
requires that when the first `is_file_locked` check fails (the file is
locked), the check is not run again — at most one check happens.  At the
concrete input where the file is locked on both checks and the user chooses
Retry once, two checks are performed: the failed step is re-executed. -/
theorem c7_counterexample_lock_check_retried :
    [true, true].headD false = true ∧
    ¬ ((lock_loop [true, true] [true]).1 ≤ 1) ∧
    (lock_loop [true, true] [true]).1 = 2 := by
  decide

theorem lock_loop_at_least_one (locks choices : List Bool) :
    1 ≤ (lock_loop locks choices).1 := by
  induction locks generalizing choices with
  | nil => exact le_refl 1
  | cons locked rest ih =>
      by_cases hl : locked = true
      · cases choices with
        | nil =>
            rw [show lock_loop (locked :: rest) [] = (1, false) from by
              simp [lock_loop, hl]]
        | cons c cs =>
            by_cases hc : c = true
            · rw [show lock_loop (locked :: rest) (c :: cs) =
                  ((lock_loop rest cs).1 + 1, (lock_loop rest cs).2) from by
                simp [lock_loop, hl, hc]]
              exact Nat.le_succ_of_le (ih cs)
            · rw [show lock_loop (locked :: rest) (c :: cs) = (1, false) from by
                simp [lock_loop, hl, hc]]
      · rw [show lock_loop (locked :: rest) choices = (1, true) from by
          cases choices <;> simp [lock_loop, hl]]

/-- C7 (amended): the only step ever re-executed after a failure is the
Schedule EXIM export file-lock check, and each re-execution happens only
because the user explicitly chose Retry when re-prompted: the number of
`is_file_locked` calls is at most the user's leading Retry choices plus one,
and the CSV writing phase is reached only when the last check found the
file unlocked. -/
theorem c7_lock_check_retried_only_on_retry (locks choices : List Bool) :
    (lock_loop locks choices).1 ≤ (choices.takeWhile (fun c => c)).length + 1 ∧
    ((lock_loop locks choices).2 = true →
      locks.getD ((lock_loop locks choices).1 - 1) false = false) := by
  induction locks generalizing choices with
  | nil =>
      refine ⟨Nat.le_add_left 1 _, fun _ => rfl⟩
  | cons locked rest ih =>
      by_cases hl : locked = true
      · cases choices with
        | nil =>
            constructor
            · show (lock_loop (locked :: rest) []).1 ≤ 0 + 1
              rw [show lock_loop (locked :: rest) [] = (1, false) from by
                simp [lock_loop, hl]]
            · intro h2
              rw [show lock_loop (locked :: rest) [] = (1, false) from by
                simp [lock_loop, hl]] at h2
              exact absurd h2 (by decide)
        | cons c cs =>
            by_cases hc : c = true
            · have hrw : lock_loop (locked :: rest) (c :: cs) =
                  ((lock_loop rest cs).1 + 1, (lock_loop rest cs).2) := by
                simp [lock_loop, hl, hc]
              constructor
              · rw [hrw]
                show (lock_loop rest cs).1 + 1 ≤
                  (List.takeWhile (fun c => c) (c :: cs)).length + 1
                rw [show List.takeWhile (fun c : Bool => c) (c :: cs) =
                    c :: List.takeWhile (fun c : Bool => c) cs from by
                  simp [List.takeWhile_cons, hc]]
                exact Nat.succ_le_succ ((ih cs).1.trans (by simp))
              · intro h2
                rw [hrw] at h2
                rw [hrw]
                show List.getD (locked :: rest)
                  ((lock_loop rest cs).1 + 1 - 1) false = false
                have h1 : 1 ≤ (lock_loop rest cs).1 := lock_loop_at_least_one rest cs
                rw [Nat.add_sub_cancel]
                rw [show (lock_loop rest cs).1 =
                    ((lock_loop rest cs).1 - 1) + 1 from (Nat.succ_pred_eq_of_pos h1).symm]
                rw [List.getD_cons_succ]
                exact (ih cs).2 h2
            · have hrw : lock_loop (locked :: rest) (c :: cs) = (1, false) := by
                simp [lock_loop, hl, hc]
              constructor
              · rw [hrw]
                exact Nat.le_add_left 1 _
              · intro h2
                rw [hrw] at h2
                exact absurd h2 (by decide)
      · have hrw : lock_loop (locked :: rest) choices = (1, true) := by
          cases choices <;> simp [lock_loop, hl]
        constructor
        · rw [hrw]
          exact Nat.le_add_left 1 _
        · intro _
          rw [hrw]
          show List.getD (locked :: rest) 0 false = false
          rw [List.getD_cons_zero]
          exact Bool.not_eq_true locked |>.mp hl

/-- Witness for C7 (amended) at a concrete input: with the file unlocked on
the first check and no user prompts, the export proceeds and the single
check found the file unlocked. -/
theorem c7_lock_check_witness :
    [false].getD ((lock_loop [false] []).1 - 1) false = false :=
  (c7_lock_check_retried_only_on_retry [false] []).2 rfl

/-- A user-visible surfacing channel used by the scripts' error handlers:
a modal `forms.alert` dialog, a pyRevit output-pane message
(`output.print_md`), or a console `print`. -/
inductive Effect where
  | alertDialog (msg : String)
  | outputLog (msg : String)
  | consolePrint (msg : String)
deriving DecidableEq, Repr

/-- Result of resolving one primary element id string in the Clash Data
module-level element lookup (`script.py` lines 206-221). -/
inductive LookupOutcome where
  | found
  | missing
  | raises
deriving DecidableEq, Repr

/-- Embedding of the Clash Data primary element lookup loop (`script.py`
lines 206-221): a resolved element is collected silently; a missing element
emits `output.print_md("Element ID ... not found ...")`; a caught exception
emits `output.print_md("Error processing Element ID ...")`. -/
def clash_lookup_effects : List (String × LookupOutcome) → List Effect
  | [] => []
  | (ids, o) :: rest =>
      (match o with
       | .found => []
       | .missing =>
           [Effect.outputLog
             ("Element ID " ++ ids ++ " not found in the selected primary document.")]
       | .raises => [Effect.outputLog ("Error processing Element ID " ++ ids)]) ++
        clash_lookup_effects rest

/-- Embedding of the per-instance loop of `get_family_symbols_from_links`
(Copy Linked Items `script.py` lines 63-87): a successfully processed
symbol is collected silently; a caught exception emits
`print("Error processing symbol in linked document ...")` (line 86). -/
def copy_linked_symbol_effects : List (String × Bool) → List Effect
  | [] => []
  | (name, ok) :: rest =>
      (if ok then []
       else [Effect.consolePrint ("Error processing symbol in linked document " ++ name)]) ++
        copy_linked_symbol_effects rest

/-- Whether an effect is a modal alert dialog. -/
def is_alert : Effect → Bool
  | Effect.alertDialog _ => true
  | _ => false

/-- C8 counterexample: the claim says every caught error is surfaced via a
modal alert dialog.  At the concrete inputs below, the Clash Data element
lookup catches an exception and the Copy Linked Items symbol loop catches an
exception; each emits exactly one surfacing effect, and neither effect is a
modal alert (they are an output-pane message and a console print). -/
theorem c8_counterexample_caught_error_not_alerted :
    clash_lookup_effects [("12a", LookupOutcome.raises)] ≠ [] ∧
    (clash_lookup_effects [("12a", LookupOutcome.raises)]).all
      (fun e => !is_alert e) = true ∧
    copy_linked_symbol_effects [("LinkA", false)] ≠ [] ∧
    (copy_linked_symbol_effects [("LinkA", false)]).all
      (fun e => !is_alert e) = true := by
  decide

/-- Result of the host calls made by `get_cut_elements` (Uncut `script.py`
lines 56-66) on one instance: the `IsVoidInstanceCuttingElement` /
`GetElementsBeingCut` calls raise, report a non-cutting instance, or yield
the elements being cut. -/
inductive CutQueryOutcome (α : Type) where
  | raises
  | notVoid
  | cutting (elems : List α)

/-- Embedding of `get_cut_elements(doc, instance)` (Uncut `script.py` lines
56-66) together with the surfacing effects it emits: a cutting instance
yields its cut elements, a non-cutting instance yields `[]`, and the
`except Exception` handler (lines 63-65, commented "Log or handle the
exception") swallows the error and returns `[]` — emitting no alert, no
output-pane message and no print in any case. -/
def get_cut_elements {α : Type} (o : CutQueryOutcome α) : List α × List Effect :=
  match o with
  | .raises => ([], [])
  | .notVoid => ([], [])
  | .cutting elems => (elems, [])

/-- One `(key, value)` update of `import_csv_to_revit` (`script.py` lines
269-322) together with the surfacing effects it emits.  That region contains
no `forms.alert`, `output.print_md` or `print` call, and its bare
`except ... pass` handlers (lines 304-306, 313-314, 321-322) swallow parse
and `Set` exceptions, so no surfacing effect is ever emitted. -/
def import_update_run (pfloat : String → Option Rat) (pint : String → Option Int)
    (conv : Rat → Rat) (update_type_params : Bool)
    (p : ImportParam) (value : String) : Option ParamValue × List Effect :=
  (import_update pfloat pint conv update_type_params p value, [])

/-- C8 (amended): not every caught error is surfaced to the user, and not
every surfaced one via a modal alert dialog: each caught or missing-element
error in the Clash Data element lookup emits exactly one output-pane
message, each caught error in the Copy Linked Items symbol loop emits
exactly one console message, while the Schedule EXIM import's numeric-parse
exception handlers and the Uncut script's cut-element query handler swallow
their caught exceptions silently — no write, no alert, no message of any
kind. -/
theorem c8_caught_errors_surfaced_or_swallowed
    (ids : List (String × LookupOutcome)) (syms : List (String × Bool))
    (pfloat : String → Option Rat) (pint : String → Option Int)
    (conv : Rat → Rat) (utp : Bool) (p : ImportParam) (value : String)
    (α : Type) (q : CutQueryOutcome α) :
    (clash_lookup_effects ids).length =
      (ids.filter (fun pr => pr.2 ≠ LookupOutcome.found)).length ∧
    (copy_linked_symbol_effects syms).length =
      (syms.filter (fun pr => pr.2 = false)).length ∧
    (p.storageType = .double → pfloat (py_strip value) = Option.none →
      import_update_run pfloat pint conv utp p value = (Option.none, [])) ∧
    (p.storageType = .integer → pint (py_strip value) = Option.none →
      import_update_run pfloat pint conv utp p value = (Option.none, [])) ∧
    (p.storageType = .elementId → pint (py_strip value) = Option.none →
      import_update_run pfloat pint conv utp p value = (Option.none, [])) ∧
    (q = CutQueryOutcome.raises → get_cut_elements q = ([], [])) := by
  refine ⟨?_, ?_, ?_, ?_, ?_, ?_⟩
  · induction ids with
    | nil => rfl
    | cons pr rest ih =>
        obtain ⟨s, o⟩ := pr
        cases o <;>
          simp [clash_lookup_effects, List.filter_cons, ih]
  · induction syms with
    | nil => rfl
    | cons pr rest ih =>
        obtain ⟨s, b⟩ := pr
        cases b <;>
          simp [copy_linked_symbol_effects, List.filter_cons, ih]
  · intro hst hparse
    unfold import_update_run
    have hupd : import_update pfloat pint conv utp p value = Option.none := by
      unfold import_update
      simp only [hst, hparse, ite_self]
    rw [hupd]
  · intro hst hparse
    unfold import_update_run
    have hupd : import_update pfloat pint conv utp p value = Option.none := by
      unfold import_update
      simp only [hst, hparse, ite_self]
    rw [hupd]
  · intro hst hparse
    unfold import_update_run
    have hupd : import_update pfloat pint conv utp p value = Option.none := by
      unfold import_update
      simp only [hst, hparse, ite_self]
    rw [hupd]
  · intro hq
    subst hq
    rfl

/-- Witness for C8 (amended) at concrete inputs: a Double parameter whose
CSV value does not parse is skipped with no surfacing effect, and the Uncut
cut-element query on a raising instance returns no elements and emits no
effect. -/
theorem c8_caught_errors_swallowed_witness :
    import_update_run (fun _ => Option.none) (fun _ => Option.none)
      (fun x => x) true ⟨.double, false, false, Option.none, 0, 0, 0⟩ "abc" =
      (Option.none, []) ∧
    get_cut_elements (CutQueryOutcome.raises : CutQueryOutcome Nat) = ([], []) :=
  ⟨(c8_caught_errors_surfaced_or_swallowed [] [] (fun _ => Option.none)
      (fun _ => Option.none) (fun x => x) true
      ⟨.double, false, false, Option.none, 0, 0, 0⟩ "abc" Nat
      CutQueryOutcome.raises).2.2.1 rfl rfl,
   (c8_caught_errors_surfaced_or_swallowed [] [] (fun _ => Option.none)
      (fun _ => Option.none) (fun x => x) true
      ⟨.double, false, false, Option.none, 0, 0, 0⟩ "abc" Nat
      CutQueryOutcome.raises).2.2.2.2.2 rfl⟩

end PyAW
